import Mathlib

/-!
# generate: one prompt, two providers

A shallow embedding of `generate.go` (package `generate`): the `Client`, its
`SendMessage` dispatch, the two send paths and the `ProxyRoundTripper`
transport wrapper.

What the Go code does itself is written out as Lean functions.  What it
delegates to other packages (`net/url`, `net/http`, the two provider SDKs) is
collected in the structure `Env`, so every theorem holds for all behaviours of
those packages.  Effects are made explicit in two ways:

* pointer-held objects (`*url.URL`, `http.Header`, `*ProxyRoundTripper`) live
  in a `Heap`, passed in and out of every function that can reach them;
* every call that leaves the package (building a provider client, a provider
  request, a transport round trip) is recorded as an `Event` in the list the
  function returns.
-/

namespace Generate

/-! ## Go values -/

/-- A Go `error` value, identified by the text its `Error` method reports. -/
structure GoError where
  msg : String
deriving DecidableEq, Repr

/-- The function `errors.New`. -/
def errors.New (text : String) : GoError :=
  { msg := text }

/-- How a Go call ends: it returns its results, or it panics. -/
inductive Outcome (α : Type) where
  | returned (value : α)
  | panicked (reason : String)
deriving DecidableEq, Repr

/-- A Go `map[string][]string` (the shape of `url.Values` and `http.Header`),
as the list of its entries. -/
abbrev GoMap := List (String × List String)

/-- The index expression `m[key]`: the slice stored under `key`, the nil slice
when the key is absent. -/
def GoMap.get (m : GoMap) (key : String) : List String :=
  match m with
  | [] => []
  | (k, v) :: rest => if k = key then v else GoMap.get rest key

/-- The assignment `m[key] = vs`: the entry for `key` is replaced, or added. -/
def GoMap.set (m : GoMap) (key : String) (vs : List String) : GoMap :=
  match m with
  | [] => [(key, vs)]
  | (k, v) :: rest => if k = key then (key, vs) :: rest else (k, v) :: GoMap.set rest key vs

/-- The fields of `url.URL` the package can observe. -/
structure URL where
  Scheme : String
  Host : String
  Path : String
  RawQuery : String
deriving DecidableEq, Repr

/-- An `http.Response`. -/
structure Response where
  StatusCode : Nat
  Body : String
deriving DecidableEq, Repr

/-- The value `time.Second`, in nanoseconds (the unit of `time.Duration`). -/
def time.Second : Nat := 1000000000

/-! ## The package's own types -/

/-- The type `Platform` is a Go `string`. -/
abbrev Platform := String

def PlatformOpenAI : Platform := "openai"

def PlatformGemini : Platform := "gemini"

/-- The struct `Client`. -/
structure Client where
  platform : Platform
  apiKey : String
  baseURL : String
  proxy : String
  model : String
deriving DecidableEq, Repr

/-- The constructor `New`. -/
def New (platform : Platform) (apiKey : String) (baseURL : String) (proxy : String)
    (model : String) : Client :=
  { platform := platform, apiKey := apiKey, baseURL := baseURL, proxy := proxy, model := model }

/-- The struct `ProxyRoundTripper`. -/
structure ProxyRoundTripper where
  APIKey : String
  ProxyURL : String
deriving DecidableEq, Repr

/-! ## The heap -/

/-- The objects the package reaches through pointers.  An address is an index
into the list of its kind; allocation appends. -/
structure Heap where
  urls : List URL
  headers : List GoMap
  roundTrippers : List ProxyRoundTripper
deriving DecidableEq, Repr

/-- An `http.Request` as the callee sees it: `URL` is a `*url.URL` and
`Header` a map, both references into the heap; the other fields are plain
values.  (`Body` is copied shallowly by `Clone`; nothing here reads it.) -/
structure Request where
  Method : String
  URL : Nat
  Header : Nat
  Body : String
deriving DecidableEq, Repr

/-- A request as a transport puts it on the wire: the URL and the headers are
read out of the heap at the moment of the call. -/
structure WireRequest where
  Method : String
  URL : URL
  Header : GoMap
  Body : String
deriving DecidableEq, Repr

/-! ## Provider SDK types (OpenAI) -/

/-- The `Transport` field of an `http.Client`. -/
inductive RoundTripper where
  /-- A nil transport: `http.DefaultTransport`. -/
  | default
  /-- The value `&http.Transport{Proxy: http.ProxyURL(u)}`. -/
  | proxied (u : URL)
  /-- A `*ProxyRoundTripper`, by its heap address. -/
  | proxyRoundTripper (addr : Nat)
deriving DecidableEq, Repr

/-- An `http.Client`; `Timeout` is a `time.Duration`, zero meaning none. -/
structure HTTPClient where
  Transport : RoundTripper
  Timeout : Nat
deriving DecidableEq, Repr

/-- The fields of `openai.ClientConfig` the package touches. -/
structure ClientConfig where
  authToken : String
  BaseURL : String
  APIType : String
  HTTPClient : HTTPClient
deriving DecidableEq, Repr

/-- The SDK constant `openai.GPT3Dot5Turbo`. -/
def openai.GPT3Dot5Turbo : String := "gpt-3.5-turbo"

/-- The SDK constant `openai.ChatMessageRoleUser`. -/
def openai.ChatMessageRoleUser : String := "user"

/-- The fields of `openai.ChatCompletionMessage` the package uses. -/
structure ChatCompletionMessage where
  Role : String
  Content : String
deriving DecidableEq, Repr

/-- A decimal constant as the source writes it, `mantissa * 10 ^ exponent`.
The `float32` field `Temperature` is kept in this form: rounding to binary is
the compiler's business and outside the model. -/
structure Decimal where
  mantissa : Int
  exponent : Int
deriving DecidableEq, Repr

/-- The fields of `openai.ChatCompletionRequest` the package sets. -/
structure ChatCompletionRequest where
  Model : String
  Temperature : Decimal
  Messages : List ChatCompletionMessage
deriving DecidableEq, Repr

/-- The field of `openai.ChatCompletionChoice` the package reads. -/
structure ChatCompletionChoice where
  Message : ChatCompletionMessage
deriving DecidableEq, Repr

/-- The field of `openai.ChatCompletionResponse` the package reads. -/
structure ChatCompletionResponse where
  Choices : List ChatCompletionChoice
deriving DecidableEq, Repr

/-! ## Provider SDK types (Gemini) -/

/-- The `option.ClientOption` values the package builds. -/
inductive ClientOption where
  | WithHTTPClient (c : HTTPClient)
  | WithAPIKey (key : String)
  | WithEndpoint (url : String)
deriving DecidableEq, Repr

/-- Modelled from the spec: the response types of the Gemini SDK
(`genai.Part`, `Content`, `Candidate`, `GenerateContentResponse`) are declared
in the SDK and not in this repository.  Following the glossary, a content
part is text or another media type. -/
inductive Part where
  | Text (text : String)
  | Blob (mimeType : String) (data : String)
deriving DecidableEq, Repr

/-- Modelled from the spec: `genai.Content`, the ordered parts of a candidate. -/
structure Content where
  Parts : List Part
deriving DecidableEq, Repr

/-- The field of `genai.Candidate` the package reads.  `Content` is a
`*Content`: a pointer, nil for a candidate that came without content (one the
provider stopped before it produced any).  `sendGeminiMessage` reads
`Content.Parts` through it. -/
structure Candidate where
  Content : Option Content
deriving DecidableEq, Repr

/-- Modelled from the spec: `genai.GenerateContentResponse`, the candidates of
a response, in order. -/
structure GenerateContentResponse where
  Candidates : List Candidate
deriving DecidableEq, Repr

/-- What an SDK call does with the HTTP client it was given: it finishes with
a result, or it sends a request and continues from the round trip's answer.
Every strategy of the SDK (one request, retries, none at all) is such a tree. -/
inductive SDKCall (α : Type) where
  | ret (result : α)
  | roundTrip (req : WireRequest) (next : Except GoError Response → SDKCall α)

/-! ## Events -/

/-- A call that leaves the package. -/
inductive Event where
  /-- The call `openai.NewClientWithConfig(config)`. -/
  | openaiNewClient (config : ClientConfig)
  /-- The call `CreateChatCompletion`: the OpenAI path's network request. -/
  | openaiCreateChatCompletion (config : ClientConfig) (req : ChatCompletionRequest)
  /-- The call `genai.NewClient(ctx, options...)`. -/
  | genaiNewClient (options : List ClientOption)
  /-- The call `GenerativeModel(modelName).GenerateContent(ctx, genai.Text(prompt))`. -/
  | genaiGenerateContent (modelName : String) (prompt : String)
  /-- The deferred `genaiClient.Close()`. -/
  | genaiClose
  /-- The underlying `transport.RoundTrip(newReq)`: the Gemini path's network
  request; `proxy` is the proxy URL set on the cloned default transport, if any. -/
  | transportRoundTrip (proxy : Option URL) (req : WireRequest)
deriving DecidableEq, Repr

/-- Events of the OpenAI send path. -/
def Event.isOpenAI : Event → Bool
  | Event.openaiNewClient _ => true
  | Event.openaiCreateChatCompletion _ _ => true
  | _ => false

/-- Events of the Gemini send path, its transport wrapper included. -/
def Event.isGemini : Event → Bool
  | Event.genaiNewClient _ => true
  | Event.genaiGenerateContent _ _ => true
  | Event.genaiClose => true
  | Event.transportRoundTrip _ _ => true
  | _ => false

/-- Events that put a request on the network. -/
def Event.isNetwork : Event → Bool
  | Event.openaiCreateChatCompletion _ _ => true
  | Event.transportRoundTrip _ _ => true
  | _ => false

/-! ## The environment -/

/-- Everything the package calls and does not define. -/
structure Env where
  /-- The function `url.Parse`. -/
  urlParse : String → Except GoError URL
  /-- The parse behind `(*URL).Query`, from `RawQuery` to `url.Values`
  (`Query` drops parse errors, so this is total). -/
  parseQuery : String → GoMap
  /-- The method `url.Values.Encode`. -/
  valuesEncode : GoMap → String
  /-- The method `RoundTrip` of the cloned `http.DefaultTransport`, given the
  proxy set on it.  By the `http.RoundTripper` contract it does not modify the
  request. -/
  transportRoundTrip : Option URL → WireRequest → Except GoError Response
  /-- The function `genai.NewClient`: no error, or the construction error. -/
  genaiNewClient : List ClientOption → Option GoError
  /-- The method `GenerateContent` of a model of a client built from these
  options, for a model name and a prompt. -/
  genaiGenerateContent : List ClientOption → String → String →
    SDKCall (Except GoError GenerateContentResponse)
  /-- The method `CreateChatCompletion` of a client built from this config. -/
  openaiCreateChatCompletion : ClientConfig → ChatCompletionRequest →
    Except GoError ChatCompletionResponse
  /-- The endpoint `openai.DefaultConfig` sets. -/
  openaiDefaultBaseURL : String
  /-- The API type `openai.DefaultConfig` sets. -/
  openaiDefaultAPIType : String

/-- Modelled from the spec: `openai.DefaultConfig` is a function of the SDK.
Its config holds the API key, the SDK's own endpoint and API type, and the
SDK's default HTTP client: default transport, no explicit timeout. -/
def openai.DefaultConfig (env : Env) (authToken : String) : ClientConfig :=
  { authToken := authToken
    BaseURL := env.openaiDefaultBaseURL
    APIType := env.openaiDefaultAPIType
    HTTPClient := { Transport := RoundTripper.default, Timeout := 0 } }

/-! ## Heap operations -/

/-- The panic of a dereference that finds no object. -/
def nilDereference : String := "invalid memory address or nil pointer dereference"

/-- The method `(*http.Request).Clone`: a deep copy.  The `URL` and the
`Header` map are copied into fresh objects and the new request refers to the
copies; the other fields are copied as values.  No result when the request
refers to no object. -/
def Request.Clone (h : Heap) (r : Request) : Option (Heap × Request) :=
  match h.urls[r.URL]?, h.headers[r.Header]? with
  | some u, some hd =>
    some ({ h with urls := h.urls ++ [u], headers := h.headers ++ [hd] },
      { r with URL := h.urls.length, Header := h.headers.length })
  | _, _ => none

/-- The method `(*URL).Query` on the URL at `addr`: a fresh `url.Values`. -/
def URL.Query (env : Env) (h : Heap) (addr : Nat) : Option GoMap :=
  match h.urls[addr]? with
  | some u => some (env.parseQuery u.RawQuery)
  | none => none

/-- The method `url.Values.Set`: `v[key] = []string{value}`. -/
def Values.Set (v : GoMap) (key : String) (value : String) : GoMap :=
  GoMap.set v key [value]

/-- The assignment `u.RawQuery = raw` through the pointer `addr`. -/
def URL.setRawQuery (h : Heap) (addr : Nat) (raw : String) : Option Heap :=
  match h.urls[addr]? with
  | some u => some { h with urls := h.urls.set addr { u with RawQuery := raw } }
  | none => none

/-- The method `http.Header.Set` on the map at `addr`.  It stores under the
canonical MIME form of `key`; the keys this package passes, `Content-Type` and
`User-Agent`, are already in that form. -/
def Header.Set (h : Heap) (addr : Nat) (key : String) (value : String) : Option Heap :=
  match h.headers[addr]? with
  | some hd => some { h with headers := h.headers.set addr (GoMap.set hd key [value]) }
  | none => none

/-- The method `http.Header.Get`: the first value under `key`, or the empty
string. -/
def Header.Get (hd : GoMap) (key : String) : String :=
  match GoMap.get hd key with
  | [] => ""
  | v :: _ => v

/-- What a transport reads when it is handed the request `r`. -/
def Request.wire (h : Heap) (r : Request) : Option WireRequest :=
  match h.urls[r.URL]?, h.headers[r.Header]? with
  | some u, some hd => some { Method := r.Method, URL := u, Header := hd, Body := r.Body }
  | _, _ => none

/-- A request built by an SDK: its URL and its header map are new objects. -/
def Heap.newRequest (h : Heap) (w : WireRequest) : Heap × Request :=
  ({ h with urls := h.urls ++ [w.URL], headers := h.headers ++ [w.Header] },
    { Method := w.Method, URL := h.urls.length, Header := h.headers.length, Body := w.Body })

/-! ## The transport wrapper -/

/-- The first statements of `RoundTrip`: the `transport` it will use, a clone
of `http.DefaultTransport` whose `Proxy` is set when `ProxyURL` is not empty.
The result is the proxy URL set on the clone, if any, or the error of
`url.Parse`. -/
def clonedTransport (env : Env) (ProxyURL : String) : Except GoError (Option URL) :=
  if ProxyURL ≠ "" then
    match env.urlParse ProxyURL with
    | Except.error err => Except.error err
    | Except.ok proxyURL => Except.ok (some proxyURL)
  else Except.ok none

/-- The method `(*ProxyRoundTripper).RoundTrip`, with receiver address `t`.
The Go results `(nil, err)` and `(resp, nil)`, the only ones the method has,
are `Except.error err` and `Except.ok resp`. -/
def ProxyRoundTripper.RoundTrip (env : Env) (h : Heap) (t : Nat) (req : Request) :
    Outcome (Except GoError Response) × Heap × List Event :=
  match h.roundTrippers[t]? with
  | none => (Outcome.panicked nilDereference, h, [])
  | some tv =>
    match clonedTransport env tv.ProxyURL with
    | Except.error err => (Outcome.returned (Except.error err), h, [])
    | Except.ok proxy =>
      let prepared : Option (Heap × WireRequest) := do
        let (h1, newReq) ← Request.Clone h req
        let vals ← URL.Query env h1 newReq.URL
        let vals := Values.Set vals "key" tv.APIKey
        let h2 ← URL.setRawQuery h1 newReq.URL (env.valuesEncode vals)
        let h3 ← Header.Set h2 newReq.Header "Content-Type" "application/json"
        let h4 ← Header.Set h3 newReq.Header "User-Agent" "google-api-go-client"
        let sent ← Request.wire h4 newReq
        pure (h4, sent)
      match prepared with
      | none => (Outcome.panicked nilDereference, h, [])
      | some (h4, sent) =>
        match env.transportRoundTrip proxy sent with
        | Except.error err =>
          (Outcome.returned (Except.error err), h4, [Event.transportRoundTrip proxy sent])
        | Except.ok resp =>
          (Outcome.returned (Except.ok resp), h4, [Event.transportRoundTrip proxy sent])

/-- An SDK call played against the `http.Client` whose `Transport` is the
`ProxyRoundTripper` at address `t`: each request of the SDK goes through
`RoundTrip`, and the SDK continues from the answer. -/
def SDKCall.run {α : Type} (env : Env) (t : Nat) : SDKCall α → Heap → Outcome α × Heap × List Event
  | SDKCall.ret result, h => (Outcome.returned result, h, [])
  | SDKCall.roundTrip w next, h =>
    let (h1, req) := Heap.newRequest h w
    match ProxyRoundTripper.RoundTrip env h1 t req with
    | (Outcome.panicked reason, h2, events) => (Outcome.panicked reason, h2, events)
    | (Outcome.returned answer, h2, events) =>
      match SDKCall.run env t (next answer) h2 with
      | (out, h3, more) => (out, h3, events ++ more)

/-! ## The Gemini send path -/

/-- The `options` slice of `sendGeminiMessage`, for the transport at `t`. -/
def geminiOptions (client : Client) (t : Nat) : List ClientOption :=
  let httpClient : HTTPClient :=
    { Transport := RoundTripper.proxyRoundTripper t, Timeout := 30 * time.Second }
  let options : List ClientOption := []
  let options := options ++ [ClientOption.WithHTTPClient httpClient]
  let options := options ++ [ClientOption.WithAPIKey client.apiKey]
  if client.baseURL.length > 0 then
    options ++ [ClientOption.WithEndpoint client.baseURL]
  else options

/-- The `modelName` of `sendGeminiMessage`. -/
def geminiModelName (client : Client) : String :=
  if client.model.length == 0 then "gemini-1.5-flash" else client.model

/-- The heap after `&ProxyRoundTripper{APIKey: client.apiKey, ProxyURL:
client.proxy}`; the new object has the address `h.roundTrippers.length`. -/
def geminiHeap (h : Heap) (client : Client) : Heap :=
  { h with roundTrippers :=
      h.roundTrippers ++ [{ APIKey := client.apiKey, ProxyURL := client.proxy }] }

/-- The call `model.GenerateContent(ctx, genai.Text(prompt))` of
`sendGeminiMessage`: the SDK's call, played against the HTTP client the
function built. -/
def geminiGenerateContent (env : Env) (h : Heap) (client : Client) (prompt : String) :
    Outcome (Except GoError GenerateContentResponse) × Heap × List Event :=
  SDKCall.run env h.roundTrippers.length
    (env.genaiGenerateContent (geminiOptions client h.roundTrippers.length)
      (geminiModelName client) prompt)
    (geminiHeap h client)

/-- The method `(*Client).sendGeminiMessage`. -/
def sendGeminiMessage (env : Env) (h : Heap) (client : Client) (prompt : String) :
    Outcome (String × Option GoError) × Heap × List Event :=
  let options := geminiOptions client h.roundTrippers.length
  match env.genaiNewClient options with
  | some err =>
    (Outcome.returned ("", some err), geminiHeap h client, [Event.genaiNewClient options])
  | none =>
    let opened :=
      [Event.genaiNewClient options, Event.genaiGenerateContent (geminiModelName client) prompt]
    match geminiGenerateContent env h client prompt with
    | (Outcome.panicked reason, h1, events) =>
      (Outcome.panicked reason, h1, opened ++ events ++ [Event.genaiClose])
    | (Outcome.returned (Except.error err), h1, events) =>
      (Outcome.returned ("", some err), h1, opened ++ events ++ [Event.genaiClose])
    | (Outcome.returned (Except.ok resp), h1, events) =>
      if resp.Candidates.length == 0 then
        (Outcome.returned ("", some (errors.New "no candidates found")), h1,
          opened ++ events ++ [Event.genaiClose])
      else
        match resp.Candidates[0]? with
        | none =>
          (Outcome.panicked "index out of range", h1, opened ++ events ++ [Event.genaiClose])
        | some first =>
          -- first.Content.Parts: a read through the pointer first.Content
          match first.Content with
          | none =>
            (Outcome.panicked nilDereference, h1, opened ++ events ++ [Event.genaiClose])
          | some firstContent =>
            let content := firstContent.Parts.foldl
              (fun content part =>
                match part with
                | Part.Text text => content ++ text
                | _ => content) ""
            (Outcome.returned (content, none), h1, opened ++ events ++ [Event.genaiClose])

/-! ## The OpenAI send path -/

/-- The `config` of `sendOpenAIMessage`: the error of `url.Parse` when the
proxy is set and does not parse. -/
def openaiConfig (env : Env) (client : Client) : Except GoError ClientConfig :=
  let config := openai.DefaultConfig env client.apiKey
  let config :=
    if client.baseURL.length > 0 then
      { config with BaseURL := client.baseURL, APIType := "CUSTOM" }
    else config
  if client.proxy.length > 0 then
    match env.urlParse client.proxy with
    | Except.error err => Except.error err
    | Except.ok proxyURL =>
      Except.ok { config with
        HTTPClient := { Transport := RoundTripper.proxied proxyURL, Timeout := time.Second * 30 } }
  else Except.ok config

/-- The `modelName` of `sendOpenAIMessage`. -/
def openaiModelName (client : Client) : String :=
  if client.model.length == 0 then openai.GPT3Dot5Turbo else client.model

/-- The `openai.ChatCompletionRequest` of `sendOpenAIMessage`. -/
def openaiRequest (client : Client) (prompt : String) : ChatCompletionRequest :=
  { Model := openaiModelName client
    Temperature := { mantissa := 8, exponent := -1 }
    Messages := [{ Role := openai.ChatMessageRoleUser, Content := prompt }] }

/-- The method `(*Client).sendOpenAIMessage`. -/
def sendOpenAIMessage (env : Env) (client : Client) (prompt : String) :
    Outcome (String × Option GoError) × List Event :=
  match openaiConfig env client with
  | Except.error err => (Outcome.returned ("", some err), [])
  | Except.ok config =>
    let calls := [Event.openaiNewClient config,
      Event.openaiCreateChatCompletion config (openaiRequest client prompt)]
    match env.openaiCreateChatCompletion config (openaiRequest client prompt) with
    | Except.error err => (Outcome.returned ("", some err), calls)
    | Except.ok resp =>
      match resp.Choices[0]? with
      | none => (Outcome.panicked "index out of range [0] with length 0", calls)
      | some choice => (Outcome.returned (choice.Message.Content, none), calls)

/-! ## Dispatch -/

/-- The method `(*Client).SendMessage`. -/
def SendMessage (env : Env) (h : Heap) (client : Client) (prompt : String) :
    Outcome (String × Option GoError) × Heap × List Event :=
  if client.platform = PlatformOpenAI then
    match sendOpenAIMessage env client prompt with
    | (out, events) => (out, h, events)
  else if client.platform = PlatformGemini then
    sendGeminiMessage env h client prompt
  else
    (Outcome.returned ("", some (errors.New "unknown client type")), h, [])

/-! ## Reference definitions for the statements -/

/-- The text of a part, when it is a text part. -/
def Part.text? : Part → Option String
  | Part.Text text => some text
  | _ => none

/-- The concatenation, in order, of the text-typed parts of a list of parts;
a part of another type adds nothing. -/
def concatText : List Part → String
  | [] => ""
  | part :: rest =>
    match Part.text? part with
    | some text => text ++ concatText rest
    | none => concatText rest

/-- The request `RoundTrip` hands to the underlying transport, in closed form,
for an incoming request `req` whose URL object is `u` and whose header map is
`hd` (lemma `RoundTrip_sends`). -/
def outgoing (env : Env) (APIKey : String) (req : Request) (u : URL) (hd : GoMap) : WireRequest :=
  { Method := req.Method
    URL := { u with RawQuery := env.valuesEncode (Values.Set (env.parseQuery u.RawQuery) "key" APIKey) }
    Header := GoMap.set (GoMap.set hd "Content-Type" ["application/json"])
      "User-Agent" ["google-api-go-client"]
    Body := req.Body }

/-- The result of an SDK call every round trip of which gets the same answer. -/
def SDKCall.answerAll {α : Type} (answer : Except GoError Response) : SDKCall α → α
  | SDKCall.ret result => result
  | SDKCall.roundTrip _ next => SDKCall.answerAll answer (next answer)

/-! ## Test doubles -/

/-- A stand-in for `url.Parse` that accepts exactly the proxy address used by
the package's test. -/
def Fake.urlParse (s : String) : Except GoError URL :=
  if s = "http://127.0.0.1:7890" then
    Except.ok { Scheme := "http", Host := "127.0.0.1:7890", Path := "", RawQuery := "" }
  else Except.error (errors.New "parse: missing protocol scheme")

/-- A query codec for keys and values that need no escaping. -/
def Fake.parseQuery (raw : String) : GoMap :=
  (raw.splitOn "&").foldl
    (fun m pair =>
      match pair.splitOn "=" with
      | [k, v] => GoMap.set m k (GoMap.get m k ++ [v])
      | _ => m) []

/-- The encoder of that codec. -/
def Fake.valuesEncode (v : GoMap) : String :=
  String.intercalate "&" (v.flatMap fun entry => entry.2.map fun value => entry.1 ++ "=" ++ value)

/-- An SDK that sends one request and hands back what the transport answers:
its error, or the canned `reply`. -/
def Fake.generateContent (reply : GenerateContentResponse) (modelName : String)
    (prompt : String) : SDKCall (Except GoError GenerateContentResponse) :=
  SDKCall.roundTrip
    { Method := "POST"
      URL := { Scheme := "https", Host := "generativelanguage.googleapis.com",
               Path := modelName, RawQuery := "alt=json" }
      Header := [("Accept", ["application/json"])]
      Body := prompt }
    (fun answer =>
      match answer with
      | Except.error err => SDKCall.ret (Except.error err)
      | Except.ok _ => SDKCall.ret (Except.ok reply))

/-- A fake environment: the network answers every request with status 200, the
Gemini SDK reports `reply` and the OpenAI SDK reports `completion`. -/
def Fake.env (reply : GenerateContentResponse) (completion : ChatCompletionResponse) : Env :=
  { urlParse := Fake.urlParse
    parseQuery := Fake.parseQuery
    valuesEncode := Fake.valuesEncode
    transportRoundTrip := fun _ _ => Except.ok { StatusCode := 200, Body := "" }
    genaiNewClient := fun _ => none
    genaiGenerateContent := fun _ modelName prompt => Fake.generateContent reply modelName prompt
    openaiCreateChatCompletion := fun _ _ => Except.ok completion
    openaiDefaultBaseURL := "https://api.openai.com/v1"
    openaiDefaultAPIType := "OPEN_AI" }

/-- A heap with nothing in it. -/
def Heap.empty : Heap :=
  { urls := [], headers := [], roundTrippers := [] }

/-- A completion with one choice. -/
def Fake.completion : ChatCompletionResponse :=
  { Choices := [{ Message := { Role := "assistant", Content := "pong" } }] }

/-- The reply of the spec's example: two text parts around a non-text part. -/
def Fake.hello : GenerateContentResponse :=
  { Candidates := [{ Content := some { Parts :=
      [Part.Text "Hello, ", Part.Blob "image/png" "", Part.Text "world"] } }] }

/-- A reply whose only candidate came without content. -/
def Fake.blocked : GenerateContentResponse :=
  { Candidates := [{ Content := none }] }

/-- A reply whose first candidate came without content and whose second
candidate has a text part. -/
def Fake.blockedThenText : GenerateContentResponse :=
  { Candidates := [{ Content := none }, { Content := some { Parts := [Part.Text "world"] } }] }

/-- The fake environment with a `genai.NewClient` that fails. -/
def Fake.envNoClient : Env :=
  { Fake.env Fake.hello Fake.completion with
    genaiNewClient := fun _ => some (errors.New "genai: client construction failed") }

/-- An SDK that sends one request and reports a failed round trip under a
message of its own, the way `http.Client.Do` wraps a transport's error. -/
def Fake.generateContentWrapping (modelName : String) (prompt : String) :
    SDKCall (Except GoError GenerateContentResponse) :=
  SDKCall.roundTrip
    { Method := "POST"
      URL := { Scheme := "https", Host := "generativelanguage.googleapis.com",
               Path := modelName, RawQuery := "alt=json" }
      Header := [("Accept", ["application/json"])]
      Body := prompt }
    (fun answer =>
      match answer with
      | Except.error err => SDKCall.ret (Except.error (errors.New ("Post: " ++ err.msg)))
      | Except.ok _ => SDKCall.ret (Except.ok Fake.hello))

/-- The fake environment with the wrapping SDK. -/
def Fake.envWrapping : Env :=
  { Fake.env Fake.hello Fake.completion with
    genaiGenerateContent := fun _ modelName prompt =>
      Fake.generateContentWrapping modelName prompt }

/-- A heap holding one request's URL and headers, with a stale `key` and a
content type of its own, and one transport wrapper. -/
def Fake.heap : Heap :=
  { urls := [{ Scheme := "https", Host := "generativelanguage.googleapis.com",
               Path := "/v1beta/models/gemini-1.5-flash:generateContent",
               RawQuery := "key=stale" }]
    headers := [[("Content-Type", ["text/plain"]), ("Accept", ["text/html"])]]
    roundTrippers := [{ APIKey := "secret", ProxyURL := "http://127.0.0.1:7890" }] }

/-- The request whose URL and headers are the objects of `Fake.heap`. -/
def Fake.request : Request :=
  { Method := "POST", URL := 0, Header := 0, Body := "ping" }

/-! ## Lemmas: Go values -/

theorem length_eq_zero_iff (s : String) : s.length = 0 ↔ s = "" := by
  constructor
  · intro hlen
    have hdata : s.data = [] := List.length_eq_zero.mp hlen
    exact String.ext hdata
  · intro hs
    subst hs
    rfl

theorem length_pos_iff (s : String) : s.length > 0 ↔ s ≠ "" := by
  rw [← not_iff_not, not_not, ← length_eq_zero_iff]
  omega

theorem GoMap.get_set_self (m : GoMap) (key : String) (vs : List String) :
    GoMap.get (GoMap.set m key vs) key = vs := by
  induction m with
  | nil => simp [GoMap.set, GoMap.get]
  | cons entry rest ih =>
    obtain ⟨k, v⟩ := entry
    by_cases hk : k = key
    · simp [GoMap.set, GoMap.get, hk]
    · simp [GoMap.set, GoMap.get, hk, ih]

theorem GoMap.get_set_ne (m : GoMap) (key other : String) (vs : List String)
    (hne : other ≠ key) : GoMap.get (GoMap.set m key vs) other = GoMap.get m other := by
  induction m with
  | nil => simp [GoMap.set, GoMap.get, Ne.symm hne]
  | cons entry rest ih =>
    obtain ⟨k, v⟩ := entry
    by_cases hk : k = key
    · subst hk
      simp [GoMap.set, GoMap.get, Ne.symm hne]
    · by_cases hko : k = other
      · subst hko
        simp [GoMap.set, GoMap.get, hk]
      · simp [GoMap.set, GoMap.get, hk, hko, ih]

/-! ## Lemmas: the transport wrapper, case by case -/

theorem RoundTrip_no_receiver (env : Env) (h : Heap) (t : Nat) (req : Request)
    (ht : h.roundTrippers[t]? = none) :
    ProxyRoundTripper.RoundTrip env h t req = (Outcome.panicked nilDereference, h, []) := by
  simp [ProxyRoundTripper.RoundTrip, ht]

theorem RoundTrip_bad_proxy (env : Env) (h : Heap) (t : Nat) (req : Request)
    (tv : ProxyRoundTripper) (err : GoError) (ht : h.roundTrippers[t]? = some tv)
    (hset : tv.ProxyURL ≠ "") (hbad : env.urlParse tv.ProxyURL = Except.error err) :
    ProxyRoundTripper.RoundTrip env h t req = (Outcome.returned (Except.error err), h, []) := by
  simp [ProxyRoundTripper.RoundTrip, clonedTransport, ht, hset, hbad]

theorem RoundTrip_bad_request (env : Env) (h : Heap) (t : Nat) (req : Request)
    (tv : ProxyRoundTripper) (proxy : Option URL) (ht : h.roundTrippers[t]? = some tv)
    (hproxy : clonedTransport env tv.ProxyURL = Except.ok proxy)
    (hreq : h.urls[req.URL]? = none ∨ h.headers[req.Header]? = none) :
    ProxyRoundTripper.RoundTrip env h t req = (Outcome.panicked nilDereference, h, []) := by
  have hclone : Request.Clone h req = none := by
    unfold Request.Clone
    rcases hreq with hu | hh
    · simp [hu]
    · cases hu : h.urls[req.URL]? <;> simp [hh]
  simp [ProxyRoundTripper.RoundTrip, ht, hproxy, hclone]

theorem RoundTrip_sends (env : Env) (h : Heap) (t : Nat) (req : Request)
    (tv : ProxyRoundTripper) (proxy : Option URL) (u : URL) (hd : GoMap)
    (ht : h.roundTrippers[t]? = some tv)
    (hproxy : clonedTransport env tv.ProxyURL = Except.ok proxy)
    (hu : h.urls[req.URL]? = some u) (hh : h.headers[req.Header]? = some hd) :
    ProxyRoundTripper.RoundTrip env h t req =
      (Outcome.returned (env.transportRoundTrip proxy (outgoing env tv.APIKey req u hd)),
        { urls := h.urls ++ [(outgoing env tv.APIKey req u hd).URL]
          headers := h.headers ++ [(outgoing env tv.APIKey req u hd).Header]
          roundTrippers := h.roundTrippers },
        [Event.transportRoundTrip proxy (outgoing env tv.APIKey req u hd)]) := by
  have hclone : Request.Clone h req =
      some ({ h with urls := h.urls ++ [u], headers := h.headers ++ [hd] },
        { req with URL := h.urls.length, Header := h.headers.length }) := by
    simp [Request.Clone, hu, hh]
  simp only [ProxyRoundTripper.RoundTrip, ht, hproxy, hclone]
  simp [URL.Query, URL.setRawQuery, Header.Set, Request.wire, outgoing, Values.Set]
  split <;> rename_i answered <;> simp [answered]

/-- Every way `RoundTrip` can end: a nil dereference, the error of `url.Parse`,
or the one hand-over to the underlying transport. -/
theorem RoundTrip_cases (env : Env) (h : Heap) (t : Nat) (req : Request) :
    ProxyRoundTripper.RoundTrip env h t req = (Outcome.panicked nilDereference, h, []) ∨
    (∃ err, ProxyRoundTripper.RoundTrip env h t req =
      (Outcome.returned (Except.error err), h, [])) ∨
    (∃ tv proxy u hd, h.roundTrippers[t]? = some tv ∧
      clonedTransport env tv.ProxyURL = Except.ok proxy ∧
      h.urls[req.URL]? = some u ∧ h.headers[req.Header]? = some hd ∧
      ProxyRoundTripper.RoundTrip env h t req =
        (Outcome.returned (env.transportRoundTrip proxy (outgoing env tv.APIKey req u hd)),
          { urls := h.urls ++ [(outgoing env tv.APIKey req u hd).URL]
            headers := h.headers ++ [(outgoing env tv.APIKey req u hd).Header]
            roundTrippers := h.roundTrippers },
          [Event.transportRoundTrip proxy (outgoing env tv.APIKey req u hd)])) := by
  cases ht : h.roundTrippers[t]? with
  | none => exact Or.inl (RoundTrip_no_receiver env h t req ht)
  | some tv =>
    cases hproxy : clonedTransport env tv.ProxyURL with
    | error err =>
      refine Or.inr (Or.inl ⟨err, ?_⟩)
      simp [ProxyRoundTripper.RoundTrip, ht, hproxy]
    | ok proxy =>
      cases hu : h.urls[req.URL]? with
      | none => exact Or.inl (RoundTrip_bad_request env h t req tv proxy ht hproxy (Or.inl hu))
      | some u =>
        cases hh : h.headers[req.Header]? with
        | none => exact Or.inl (RoundTrip_bad_request env h t req tv proxy ht hproxy (Or.inr hh))
        | some hd =>
          exact Or.inr (Or.inr ⟨tv, proxy, u, hd, rfl, hproxy, rfl, rfl,
            RoundTrip_sends env h t req tv proxy u hd ht hproxy hu hh⟩)

/-- What `RoundTrip` leaves behind: the round trippers are as they were and
every object that existed before the call still has its old value. -/
theorem RoundTrip_frame (env : Env) (h : Heap) (t : Nat) (req : Request) :
    (ProxyRoundTripper.RoundTrip env h t req).2.1.roundTrippers = h.roundTrippers ∧
    h.urls <+: (ProxyRoundTripper.RoundTrip env h t req).2.1.urls ∧
    h.headers <+: (ProxyRoundTripper.RoundTrip env h t req).2.1.headers := by
  rcases RoundTrip_cases env h t req with hr | ⟨err, hr⟩ | ⟨tv, proxy, u, hd, _, _, _, _, hr⟩
  · simp [hr]
  · simp [hr]
  · simp [hr]

/-- The only event `RoundTrip` can emit is the hand-over to the transport. -/
theorem RoundTrip_events (env : Env) (h : Heap) (t : Nat) (req : Request) (e : Event)
    (he : e ∈ (ProxyRoundTripper.RoundTrip env h t req).2.2) :
    ∃ proxy sent, e = Event.transportRoundTrip proxy sent := by
  rcases RoundTrip_cases env h t req with hr | ⟨err, hr⟩ | ⟨tv, proxy, u, hd, _, _, _, _, hr⟩
  · simp [hr] at he
  · simp [hr] at he
  · rw [hr] at he
    simp at he
    exact ⟨proxy, _, he⟩

/-! ## Lemmas: SDK calls played against the wrapper -/

theorem run_roundTrip {α : Type} (env : Env) (t : Nat) (w : WireRequest)
    (next : Except GoError Response → SDKCall α) (h : Heap) :
    SDKCall.run env t (SDKCall.roundTrip w next) h =
      match ProxyRoundTripper.RoundTrip env (Heap.newRequest h w).1 t (Heap.newRequest h w).2 with
      | (Outcome.panicked reason, h2, events) => (Outcome.panicked reason, h2, events)
      | (Outcome.returned answer, h2, events) =>
        ((SDKCall.run env t (next answer) h2).1, (SDKCall.run env t (next answer) h2).2.1,
          events ++ (SDKCall.run env t (next answer) h2).2.2) := by
  simp only [SDKCall.run, Heap.newRequest]

/-- The only events of an SDK call are the wrapper's hand-overs. -/
theorem run_events {α : Type} (env : Env) (t : Nat) (c : SDKCall α) :
    ∀ (h : Heap) (e : Event), e ∈ (SDKCall.run env t c h).2.2 →
      ∃ proxy sent, e = Event.transportRoundTrip proxy sent := by
  induction c with
  | ret result =>
    intro h e he
    simp [SDKCall.run] at he
  | roundTrip w next ih =>
    intro h e he
    rw [run_roundTrip] at he
    have hev := RoundTrip_events env (Heap.newRequest h w).1 t (Heap.newRequest h w).2
    generalize ProxyRoundTripper.RoundTrip env (Heap.newRequest h w).1 t
      (Heap.newRequest h w).2 = r at he hev
    obtain ⟨out, h2, events⟩ := r
    cases out with
    | panicked reason => exact hev e he
    | returned answer =>
      simp only [List.mem_append] at he
      rcases he with he | he
      · exact hev e he
      · exact ih answer h2 e he

/-- With a proxy URL that does not parse, every round trip of an SDK call is
answered with the parse error and none reaches the transport. -/
theorem run_bad_proxy {α : Type} (env : Env) (t : Nat) (tv : ProxyRoundTripper)
    (err : GoError) (hset : tv.ProxyURL ≠ "")
    (hbad : env.urlParse tv.ProxyURL = Except.error err) (c : SDKCall α) :
    ∀ (h : Heap), h.roundTrippers[t]? = some tv →
      (SDKCall.run env t c h).1 = Outcome.returned (SDKCall.answerAll (Except.error err) c) ∧
      (SDKCall.run env t c h).2.2 = [] := by
  induction c with
  | ret result =>
    intro h _
    simp [SDKCall.run, SDKCall.answerAll]
  | roundTrip w next ih =>
    intro h ht
    have ht1 : (Heap.newRequest h w).1.roundTrippers[t]? = some tv := ht
    rw [run_roundTrip,
      RoundTrip_bad_proxy env (Heap.newRequest h w).1 t (Heap.newRequest h w).2 tv err ht1 hset hbad]
    have hnext := ih (Except.error err) (Heap.newRequest h w).1 ht1
    simp [SDKCall.answerAll, hnext.1, hnext.2]

/-! ## Lemmas: the two send paths -/

theorem sendGeminiMessage_no_client (env : Env) (h : Heap) (client : Client) (prompt : String)
    (err : GoError)
    (hnew : env.genaiNewClient (geminiOptions client h.roundTrippers.length) = some err) :
    sendGeminiMessage env h client prompt =
      (Outcome.returned ("", some err), geminiHeap h client,
        [Event.genaiNewClient (geminiOptions client h.roundTrippers.length)]) := by
  simp [sendGeminiMessage, hnew]

/-- Once the provider client is built, the events of the Gemini path are: the
construction, the generate-content call, what that call sends, the close. -/
theorem sendGeminiMessage_trace (env : Env) (h : Heap) (client : Client) (prompt : String)
    (hnew : env.genaiNewClient (geminiOptions client h.roundTrippers.length) = none) :
    (sendGeminiMessage env h client prompt).2.2 =
      [Event.genaiNewClient (geminiOptions client h.roundTrippers.length),
        Event.genaiGenerateContent (geminiModelName client) prompt] ++
      (geminiGenerateContent env h client prompt).2.2 ++ [Event.genaiClose] := by
  unfold sendGeminiMessage
  simp only [hnew]
  generalize geminiGenerateContent env h client prompt = r
  obtain ⟨out, h1, events⟩ := r
  cases out with
  | panicked reason => rfl
  | returned res =>
    cases res with
    | error err => rfl
    | ok resp =>
      dsimp only
      split
      · rfl
      · split
        · rfl
        · split <;> rfl

/-- Every event of the Gemini path is a Gemini event. -/
theorem sendGeminiMessage_events (env : Env) (h : Heap) (client : Client) (prompt : String)
    (e : Event) (he : e ∈ (sendGeminiMessage env h client prompt).2.2) :
    e.isGemini = true ∧ e.isOpenAI = false := by
  cases hnew : env.genaiNewClient (geminiOptions client h.roundTrippers.length) with
  | some err =>
    rw [sendGeminiMessage_no_client env h client prompt err hnew] at he
    simp at he
    subst he
    exact ⟨rfl, rfl⟩
  | none =>
    rw [sendGeminiMessage_trace env h client prompt hnew] at he
    simp only [List.mem_append, List.mem_cons, List.mem_singleton, List.not_mem_nil,
      or_false] at he
    rcases he with ((he | he) | he) | he
    · subst he; exact ⟨rfl, rfl⟩
    · subst he; exact ⟨rfl, rfl⟩
    · obtain ⟨proxy, sent, hsent⟩ := run_events env _ _ _ e he
      subst hsent
      exact ⟨rfl, rfl⟩
    · subst he; exact ⟨rfl, rfl⟩

/-- Every event of the OpenAI path is an OpenAI event. -/
theorem sendOpenAIMessage_events (env : Env) (client : Client) (prompt : String)
    (e : Event) (he : e ∈ (sendOpenAIMessage env client prompt).2) :
    e.isOpenAI = true ∧ e.isGemini = false := by
  unfold sendOpenAIMessage at he
  split at he
  · simp at he
  · have hcalls : ∀ config req, e ∈ [Event.openaiNewClient config,
        Event.openaiCreateChatCompletion config req] → e.isOpenAI = true ∧ e.isGemini = false := by
      intro config req hmem
      simp at hmem
      rcases hmem with hmem | hmem <;> subst hmem <;> exact ⟨rfl, rfl⟩
    dsimp only at he
    split at he
    · exact hcalls _ _ he
    · split at he <;> exact hcalls _ _ he

/-- The result of the Gemini path when the generate-content call fails. -/
theorem sendGeminiMessage_of_error (env : Env) (h : Heap) (client : Client) (prompt : String)
    (err : GoError)
    (hnew : env.genaiNewClient (geminiOptions client h.roundTrippers.length) = none)
    (hrun : (geminiGenerateContent env h client prompt).1 = Outcome.returned (Except.error err)) :
    (sendGeminiMessage env h client prompt).1 = Outcome.returned ("", some err) := by
  unfold sendGeminiMessage
  simp only [hnew]
  generalize geminiGenerateContent env h client prompt = r at hrun
  obtain ⟨out, h1, events⟩ := r
  simp only at hrun
  subst hrun
  rfl

/-- The loop of `sendGeminiMessage` appends the text parts to what it has. -/
theorem foldl_text (parts : List Part) (content : String) :
    parts.foldl
      (fun content part =>
        match part with
        | Part.Text text => content ++ text
        | _ => content) content = content ++ concatText parts := by
  induction parts generalizing content with
  | nil => simp [concatText]
  | cons part rest ih =>
    cases part with
    | Text text => simp [concatText, Part.text?, ih, String.append_assoc]
    | Blob mimeType data => simp [concatText, Part.text?, ih]

/-- The result of the Gemini path when the generate-content call succeeds. -/
theorem sendGeminiMessage_of_ok (env : Env) (h : Heap) (client : Client) (prompt : String)
    (resp : GenerateContentResponse)
    (hnew : env.genaiNewClient (geminiOptions client h.roundTrippers.length) = none)
    (hrun : (geminiGenerateContent env h client prompt).1 = Outcome.returned (Except.ok resp)) :
    (sendGeminiMessage env h client prompt).1 =
      match resp.Candidates with
      | [] => Outcome.returned ("", some (errors.New "no candidates found"))
      | first :: _ =>
        match first.Content with
        | none => Outcome.panicked nilDereference
        | some firstContent => Outcome.returned (concatText firstContent.Parts, none) := by
  unfold sendGeminiMessage
  simp only [hnew]
  generalize geminiGenerateContent env h client prompt = r at hrun
  obtain ⟨out, h1, events⟩ := r
  simp only at hrun
  subst hrun
  cases hc : resp.Candidates with
  | nil => simp [hc]
  | cons first rest =>
    cases hcontent : first.Content with
    | none => simp [hc, hcontent]
    | some firstContent => simp [hc, hcontent, foldl_text]

theorem concatText_no_text (parts : List Part)
    (hnone : ∀ part ∈ parts, Part.text? part = none) : concatText parts = "" := by
  induction parts with
  | nil => rfl
  | cons part rest ih =>
    have hpart : Part.text? part = none := hnone part (List.mem_cons_self part rest)
    have hrest : concatText rest = "" :=
      ih (fun other hmem => hnone other (List.mem_cons_of_mem part hmem))
    simp [concatText, hpart, hrest]

theorem sendOpenAIMessage_no_config (env : Env) (client : Client) (prompt : String)
    (err : GoError) (hconfig : openaiConfig env client = Except.error err) :
    sendOpenAIMessage env client prompt = (Outcome.returned ("", some err), []) := by
  simp [sendOpenAIMessage, hconfig]

/-- Once the config is built, the OpenAI path builds one client from it and
sends one request through it. -/
theorem sendOpenAIMessage_trace (env : Env) (client : Client) (prompt : String)
    (config : ClientConfig) (hconfig : openaiConfig env client = Except.ok config) :
    (sendOpenAIMessage env client prompt).2 =
      [Event.openaiNewClient config,
        Event.openaiCreateChatCompletion config (openaiRequest client prompt)] := by
  unfold sendOpenAIMessage
  simp only [hconfig]
  split
  · rfl
  · split <;> rfl

/-! ## C1 and C2: dispatch -/

/-- C1: for a platform that is neither "openai" nor "gemini", and for every
prompt, `SendMessage` returns the empty string with the error "unknown client
type"; neither send path is entered: the heap is as it was (no transport
wrapper was created) and no call left the package. -/
theorem SendMessage_unknown_platform (env : Env) (h : Heap) (client : Client) (prompt : String)
    (hopenai : client.platform ≠ PlatformOpenAI) (hgemini : client.platform ≠ PlatformGemini) :
    SendMessage env h client prompt =
      (Outcome.returned ("", some { msg := "unknown client type" }), h, []) := by
  simp [SendMessage, hopenai, hgemini, errors.New]

theorem SendMessage_unknown_platform_witness :
    ("claude" ≠ PlatformOpenAI ∧ "claude" ≠ PlatformGemini) ∧
    SendMessage (Fake.env Fake.hello Fake.completion) Heap.empty
        (New "claude" "secret" "" "" "") "ping" =
      (Outcome.returned ("", some { msg := "unknown client type" }), Heap.empty, []) :=
  ⟨⟨by decide, by decide⟩,
    SendMessage_unknown_platform (Fake.env Fake.hello Fake.completion) Heap.empty
      (New "claude" "secret" "" "" "") "ping" (by decide) (by decide)⟩

/-- C2: on platform "openai" `SendMessage` returns exactly what
`sendOpenAIMessage` returns, leaves the heap alone (no `ProxyRoundTripper` is
created) and emits OpenAI events only; on platform "gemini" it is exactly
`sendGeminiMessage` and emits Gemini events only.  One branch runs, and its
result, error included, is handed back as it is. -/
theorem SendMessage_dispatch (env : Env) (h : Heap) (client : Client) (prompt : String) :
    (client.platform = PlatformOpenAI →
      SendMessage env h client prompt =
        ((sendOpenAIMessage env client prompt).1, h, (sendOpenAIMessage env client prompt).2) ∧
      ∀ e ∈ (SendMessage env h client prompt).2.2, e.isOpenAI = true ∧ e.isGemini = false) ∧
    (client.platform = PlatformGemini →
      SendMessage env h client prompt = sendGeminiMessage env h client prompt ∧
      ∀ e ∈ (SendMessage env h client prompt).2.2, e.isGemini = true ∧ e.isOpenAI = false) := by
  constructor
  · intro hp
    have hsend : SendMessage env h client prompt =
        ((sendOpenAIMessage env client prompt).1, h, (sendOpenAIMessage env client prompt).2) := by
      simp [SendMessage, hp]
    refine ⟨hsend, ?_⟩
    intro e he
    rw [hsend] at he
    exact sendOpenAIMessage_events env client prompt e he
  · intro hp
    have hne : PlatformGemini ≠ PlatformOpenAI := by decide
    have hsend : SendMessage env h client prompt = sendGeminiMessage env h client prompt := by
      simp [SendMessage, hp, hne]
    refine ⟨hsend, ?_⟩
    intro e he
    rw [hsend] at he
    exact sendGeminiMessage_events env h client prompt e he

/-- The package's test `TestClient_SendMessage`, run against the fake
environment: a Gemini client with the test's proxy and no model gets the
reply's text and no error; the provider client is built, the default model is
asked, one request goes through the proxy, and the client is closed. -/
theorem TestClient_SendMessage :
    (SendMessage (Fake.env Fake.hello Fake.completion) Heap.empty
        (New PlatformGemini "test-key" "" "http://127.0.0.1:7890" "") "test").1 =
      Outcome.returned ("Hello, world", none) ∧
    (SendMessage (Fake.env Fake.hello Fake.completion) Heap.empty
        (New PlatformGemini "test-key" "" "http://127.0.0.1:7890" "") "test").2.2 =
      [Event.genaiNewClient
          [ClientOption.WithHTTPClient
              { Transport := RoundTripper.proxyRoundTripper 0, Timeout := 30000000000 },
            ClientOption.WithAPIKey "test-key"],
        Event.genaiGenerateContent "gemini-1.5-flash" "test",
        Event.transportRoundTrip
          (some { Scheme := "http", Host := "127.0.0.1:7890", Path := "", RawQuery := "" })
          { Method := "POST"
            URL := { Scheme := "https", Host := "generativelanguage.googleapis.com",
                     Path := "gemini-1.5-flash",
                     RawQuery := Fake.valuesEncode
                       (Values.Set (Fake.parseQuery "alt=json") "key" "test-key") }
            Header := [("Accept", ["application/json"]),
              ("Content-Type", ["application/json"]),
              ("User-Agent", ["google-api-go-client"])]
            Body := "test" },
        Event.genaiClose] := by
  constructor <;> rfl

/-! ## C3: a proxy URL that does not parse -/

/-- C3, as amended: let the client's proxy URL be non-empty and let
`url.Parse` fail on it with `err`.  On the OpenAI path `SendMessage` returns
the empty string and `err` before any provider client is built or request sent
(no event).  Every `RoundTrip` of a wrapper holding that proxy URL returns
`(nil, err)` without reaching the underlying transport and without touching
the heap.  On the Gemini path no event of `SendMessage` is a network call,
whatever the SDK does, and `SendMessage` returns what the SDK reports: when
`genai.NewClient` fails, the empty string and the construction error, the
wrapper never having run; when the client is built and the SDK, all of whose
round trips fail with `err`, reports the error `reported` (`err` itself for an
SDK that hands the transport's error back as it is), the empty string and
`reported`. -/
theorem malformed_proxy_no_network (env : Env) (h : Heap) (client : Client) (prompt : String)
    (err : GoError) (hset : client.proxy ≠ "")
    (hbad : env.urlParse client.proxy = Except.error err) :
    (client.platform = PlatformOpenAI →
      SendMessage env h client prompt = (Outcome.returned ("", some err), h, [])) ∧
    (∀ (hp : Heap) (t : Nat) (req : Request) (tv : ProxyRoundTripper),
      hp.roundTrippers[t]? = some tv → tv.ProxyURL = client.proxy →
      ProxyRoundTripper.RoundTrip env hp t req =
        (Outcome.returned (Except.error err), hp, [])) ∧
    (client.platform = PlatformGemini →
      (∀ e ∈ (SendMessage env h client prompt).2.2, e.isNetwork = false) ∧
      (∀ failed : GoError,
        env.genaiNewClient (geminiOptions client h.roundTrippers.length) = some failed →
        SendMessage env h client prompt =
          (Outcome.returned ("", some failed), geminiHeap h client,
            [Event.genaiNewClient (geminiOptions client h.roundTrippers.length)])) ∧
      (env.genaiNewClient (geminiOptions client h.roundTrippers.length) = none →
        ∀ reported : GoError,
          SDKCall.answerAll (Except.error err)
              (env.genaiGenerateContent (geminiOptions client h.roundTrippers.length)
                (geminiModelName client) prompt) = Except.error reported →
          (SendMessage env h client prompt).1 = Outcome.returned ("", some reported) ∧
          (SendMessage env h client prompt).2.2 =
            [Event.genaiNewClient (geminiOptions client h.roundTrippers.length),
              Event.genaiGenerateContent (geminiModelName client) prompt,
              Event.genaiClose])) := by
  have hpos : client.proxy.length > 0 := (length_pos_iff client.proxy).mpr hset
  refine ⟨?_, ?_, ?_⟩
  · intro hp
    simp [SendMessage, hp, sendOpenAIMessage, openaiConfig, hpos, hbad]
  · intro hp t req tv ht hproxy
    exact RoundTrip_bad_proxy env hp t req tv err ht (by rw [hproxy]; exact hset)
      (by rw [hproxy]; exact hbad)
  · intro hp
    have hne : PlatformGemini ≠ PlatformOpenAI := by decide
    have hsend : SendMessage env h client prompt = sendGeminiMessage env h client prompt := by
      simp [SendMessage, hp, hne]
    have ht : (geminiHeap h client).roundTrippers[h.roundTrippers.length]? =
        some { APIKey := client.apiKey, ProxyURL := client.proxy } := by
      simp [geminiHeap]
    have hrun := run_bad_proxy env h.roundTrippers.length
      { APIKey := client.apiKey, ProxyURL := client.proxy } err hset hbad
      (env.genaiGenerateContent (geminiOptions client h.roundTrippers.length)
        (geminiModelName client) prompt) (geminiHeap h client) ht
    rw [hsend]
    refine ⟨?_, ?_, ?_⟩
    · intro e he
      cases hnew : env.genaiNewClient (geminiOptions client h.roundTrippers.length) with
      | some failed =>
        rw [sendGeminiMessage_no_client env h client prompt failed hnew] at he
        simp at he
        subst he
        rfl
      | none =>
        rw [sendGeminiMessage_trace env h client prompt hnew] at he
        unfold geminiGenerateContent at he
        rw [hrun.2] at he
        simp at he
        rcases he with he | he | he <;> subst he <;> rfl
    · intro failed hnew
      exact sendGeminiMessage_no_client env h client prompt failed hnew
    · intro hnew reported hreported
      constructor
      · apply sendGeminiMessage_of_error env h client prompt reported hnew
        unfold geminiGenerateContent
        rw [hrun.1, hreported]
      · rw [sendGeminiMessage_trace env h client prompt hnew]
        unfold geminiGenerateContent
        rw [hrun.2]
        rfl

theorem malformed_proxy_no_network_witness :
    (":7890" ≠ "" ∧
      (Fake.env Fake.hello Fake.completion).urlParse ":7890" =
        Except.error { msg := "parse: missing protocol scheme" }) ∧
    SendMessage (Fake.env Fake.hello Fake.completion) Heap.empty
        (New PlatformOpenAI "secret" "" ":7890" "") "ping" =
      (Outcome.returned ("", some { msg := "parse: missing protocol scheme" }), Heap.empty, []) ∧
    (SendMessage (Fake.env Fake.hello Fake.completion) Heap.empty
        (New PlatformGemini "secret" "" ":7890" "") "ping").1 =
      Outcome.returned ("", some { msg := "parse: missing protocol scheme" }) ∧
    (SendMessage Fake.envWrapping Heap.empty
        (New PlatformGemini "secret" "" ":7890" "") "ping").1 =
      Outcome.returned ("", some { msg := "Post: parse: missing protocol scheme" }) :=
  ⟨⟨by decide, rfl⟩,
    (malformed_proxy_no_network (Fake.env Fake.hello Fake.completion) Heap.empty
      (New PlatformOpenAI "secret" "" ":7890" "") "ping"
      { msg := "parse: missing protocol scheme" } (by decide) rfl).1 rfl,
    (((malformed_proxy_no_network (Fake.env Fake.hello Fake.completion) Heap.empty
      (New PlatformGemini "secret" "" ":7890" "") "ping"
      { msg := "parse: missing protocol scheme" } (by decide) rfl).2.2 rfl).2.2 rfl
        { msg := "parse: missing protocol scheme" } rfl).1,
    (((malformed_proxy_no_network Fake.envWrapping Heap.empty
      (New PlatformGemini "secret" "" ":7890" "") "ping"
      { msg := "parse: missing protocol scheme" } (by decide) rfl).2.2 rfl).2.2 rfl
        { msg := "Post: parse: missing protocol scheme" } rfl).1⟩

/-- C3, counterexample: on the Gemini path a malformed proxy URL does not make
`SendMessage` fail with the parse error in every case.  The proxy ":7890" is
not empty and does not parse.  With a `genai.NewClient` that fails,
`SendMessage` returns the construction error: the function returns at its
first `if err != nil`, before any round trip.  With an SDK that reports a
failed round trip under its own message, `SendMessage` returns that error.
Neither is the parse error. -/
theorem malformed_proxy_gemini_counterexample :
    (New PlatformGemini "secret" "" ":7890" "").proxy ≠ "" ∧
    Fake.envNoClient.urlParse ":7890" =
      Except.error { msg := "parse: missing protocol scheme" } ∧
    Fake.envWrapping.urlParse ":7890" =
      Except.error { msg := "parse: missing protocol scheme" } ∧
    (SendMessage Fake.envNoClient Heap.empty
        (New PlatformGemini "secret" "" ":7890" "") "ping").1 =
      Outcome.returned ("", some { msg := "genai: client construction failed" }) ∧
    (SendMessage Fake.envNoClient Heap.empty
        (New PlatformGemini "secret" "" ":7890" "") "ping").1 ≠
      Outcome.returned ("", some { msg := "parse: missing protocol scheme" }) ∧
    (SendMessage Fake.envWrapping Heap.empty
        (New PlatformGemini "secret" "" ":7890" "") "ping").1 =
      Outcome.returned ("", some { msg := "Post: parse: missing protocol scheme" }) ∧
    (SendMessage Fake.envWrapping Heap.empty
        (New PlatformGemini "secret" "" ":7890" "") "ping").1 ≠
      Outcome.returned ("", some { msg := "parse: missing protocol scheme" }) := by
  have hnoclient : (SendMessage Fake.envNoClient Heap.empty
      (New PlatformGemini "secret" "" ":7890" "") "ping").1 =
      Outcome.returned ("", some { msg := "genai: client construction failed" }) := rfl
  have hwrapping : (SendMessage Fake.envWrapping Heap.empty
      (New PlatformGemini "secret" "" ":7890" "") "ping").1 =
      Outcome.returned ("", some { msg := "Post: parse: missing protocol scheme" }) := rfl
  refine ⟨by decide, rfl, rfl, hnoclient, ?_, hwrapping, ?_⟩
  · rw [hnoclient]
    decide
  · rw [hwrapping]
    decide

/-! ## C4 and C5: the Gemini response -/

/-- What `sendGeminiMessage` makes of a response the generate-content call
hands back: without a candidate, the empty string and the error "no candidates
found"; with a first candidate that has content, the concatenation of that
content's text parts and a nil error; with a first candidate that has none, a
nil-dereference panic. -/
theorem gemini_candidates_guard (env : Env) (h : Heap) (client : Client) (prompt : String)
    (resp : GenerateContentResponse)
    (hnew : env.genaiNewClient (geminiOptions client h.roundTrippers.length) = none)
    (hrun : (geminiGenerateContent env h client prompt).1 = Outcome.returned (Except.ok resp)) :
    (resp.Candidates = [] →
      (sendGeminiMessage env h client prompt).1 =
        Outcome.returned ("", some { msg := "no candidates found" })) ∧
    (∀ first rest firstContent, resp.Candidates = first :: rest →
      first.Content = some firstContent →
      (sendGeminiMessage env h client prompt).1 =
        Outcome.returned (concatText firstContent.Parts, none)) ∧
    (∀ first rest, resp.Candidates = first :: rest → first.Content = none →
      (sendGeminiMessage env h client prompt).1 = Outcome.panicked nilDereference) := by
  have hsend := sendGeminiMessage_of_ok env h client prompt resp hnew hrun
  refine ⟨?_, ?_, ?_⟩
  · intro hempty
    rw [hsend, hempty]
    rfl
  · intro first rest firstContent hfirst hcontent
    rw [hsend, hfirst]
    simp only [hcontent]
  · intro first rest hfirst hcontent
    rw [hsend, hfirst]
    simp only [hcontent]

/-- Where the first candidate has content, the text returned is the
concatenation, in order, of its text parts; the other parts add nothing and
the other candidates are not read.  Parts "Hello, ", a non-text part, "world"
give "Hello, world"; content without a text part gives the empty string. -/
theorem gemini_text_of_first_candidate (env : Env) (h : Heap) (client : Client)
    (prompt : String) (resp : GenerateContentResponse) (first : Candidate)
    (rest : List Candidate) (firstContent : Content)
    (hnew : env.genaiNewClient (geminiOptions client h.roundTrippers.length) = none)
    (hrun : (geminiGenerateContent env h client prompt).1 = Outcome.returned (Except.ok resp))
    (hfirst : resp.Candidates = first :: rest) (hcontent : first.Content = some firstContent) :
    (sendGeminiMessage env h client prompt).1 =
      Outcome.returned (concatText firstContent.Parts, none) ∧
    (∀ mimeType data,
      firstContent.Parts = [Part.Text "Hello, ", Part.Blob mimeType data, Part.Text "world"] →
      (sendGeminiMessage env h client prompt).1 = Outcome.returned ("Hello, world", none)) ∧
    ((∀ part ∈ firstContent.Parts, Part.text? part = none) →
      (sendGeminiMessage env h client prompt).1 = Outcome.returned ("", none)) := by
  have hsend := (gemini_candidates_guard env h client prompt resp hnew hrun).2.1
    first rest firstContent hfirst hcontent
  refine ⟨hsend, ?_, ?_⟩
  · intro mimeType data hparts
    rw [hsend, hparts]
    rfl
  · intro hnone
    rw [hsend, concatText_no_text firstContent.Parts hnone]

/-- C4, the failing case: on the Gemini path, a response that was received and
has at least one candidate does not always give a nil error.  When the first
candidate came without content, the read `Content.Parts` goes through a nil
pointer: `sendGeminiMessage` panics and returns nothing, neither a text nor a
nil error.  (Without a candidate it returns "no candidates found", and with
content it returns a nil error: `gemini_candidates_guard`.) -/
theorem gemini_contentless_candidate_panics (env : Env) (h : Heap) (client : Client)
    (prompt : String) (resp : GenerateContentResponse) (first : Candidate)
    (rest : List Candidate)
    (hnew : env.genaiNewClient (geminiOptions client h.roundTrippers.length) = none)
    (hrun : (geminiGenerateContent env h client prompt).1 = Outcome.returned (Except.ok resp))
    (hfirst : resp.Candidates = first :: rest) (hnil : first.Content = none) :
    resp.Candidates ≠ [] ∧
    (sendGeminiMessage env h client prompt).1 = Outcome.panicked nilDereference ∧
    ∀ text err, (sendGeminiMessage env h client prompt).1 ≠ Outcome.returned (text, err) := by
  have hsend := sendGeminiMessage_of_ok env h client prompt resp hnew hrun
  rw [hfirst] at hsend
  simp only [hnil] at hsend
  refine ⟨?_, hsend, ?_⟩
  · rw [hfirst]
    exact List.cons_ne_nil first rest
  · intro text err hreturned
    rw [hsend] at hreturned
    cases hreturned

theorem gemini_contentless_candidate_panics_witness :
    ((Fake.env Fake.blocked Fake.completion).genaiNewClient
        (geminiOptions (New PlatformGemini "secret" "" "" "") Heap.empty.roundTrippers.length) =
        none ∧
      (geminiGenerateContent (Fake.env Fake.blocked Fake.completion) Heap.empty
        (New PlatformGemini "secret" "" "" "") "test").1 =
        Outcome.returned (Except.ok Fake.blocked) ∧
      Fake.blocked.Candidates = { Content := none } :: []) ∧
    (sendGeminiMessage (Fake.env Fake.blocked Fake.completion) Heap.empty
        (New PlatformGemini "secret" "" "" "") "test").1 =
      Outcome.panicked "invalid memory address or nil pointer dereference" :=
  ⟨⟨rfl, rfl, rfl⟩,
    (gemini_contentless_candidate_panics (Fake.env Fake.blocked Fake.completion) Heap.empty
      (New PlatformGemini "secret" "" "" "") "test" Fake.blocked { Content := none } []
      rfl rfl rfl rfl).2.1⟩

/-- C5, the failing case: the response has two candidates, the first without
content (hence without a text part), the second with the text "world".  The
claim gives the empty string and a nil error; `sendGeminiMessage` panics on
the nil `Content` of the first candidate and returns nothing.  (With content,
the text is the concatenation the claim describes:
`gemini_text_of_first_candidate`.) -/
theorem gemini_contentless_first_candidate :
    (geminiGenerateContent (Fake.env Fake.blockedThenText Fake.completion) Heap.empty
        (New PlatformGemini "secret" "" "" "") "test").1 =
      Outcome.returned (Except.ok
        { Candidates :=
            [{ Content := none }, { Content := some { Parts := [Part.Text "world"] } }] }) ∧
    (sendGeminiMessage (Fake.env Fake.blockedThenText Fake.completion) Heap.empty
        (New PlatformGemini "secret" "" "" "") "test").1 =
      Outcome.panicked "invalid memory address or nil pointer dereference" ∧
    (sendGeminiMessage (Fake.env Fake.blockedThenText Fake.completion) Heap.empty
        (New PlatformGemini "secret" "" "" "") "test").1 ≠ Outcome.returned ("", none) ∧
    (sendGeminiMessage (Fake.env Fake.hello Fake.completion) Heap.empty
        (New PlatformGemini "secret" "" "" "") "test").1 =
      Outcome.returned ("Hello, world", none) := by
  have hpanic : (sendGeminiMessage (Fake.env Fake.blockedThenText Fake.completion) Heap.empty
      (New PlatformGemini "secret" "" "" "") "test").1 =
      Outcome.panicked "invalid memory address or nil pointer dereference" := rfl
  refine ⟨rfl, hpanic, ?_, rfl⟩
  rw [hpanic]
  decide

/-! ## C6: the model name -/

/-- C6: the model name handed to the provider is the configured model, as it
is, when that is not empty, and otherwise the default of the path,
"gemini-1.5-flash" on the Gemini path and "gpt-3.5-turbo" on the OpenAI path;
it is never empty.  Every generate-content call of `sendGeminiMessage` and
every chat-completion request of `sendOpenAIMessage` carries that name, and
the call is made as soon as the provider client, or the config, is built. -/
theorem resolved_model (env : Env) (h : Heap) (client : Client) (prompt : String) :
    (client.model ≠ "" →
      geminiModelName client = client.model ∧ openaiModelName client = client.model) ∧
    (client.model = "" →
      geminiModelName client = "gemini-1.5-flash" ∧ openaiModelName client = "gpt-3.5-turbo") ∧
    geminiModelName client ≠ "" ∧ openaiModelName client ≠ "" ∧
    (∀ modelName sent,
      Event.genaiGenerateContent modelName sent ∈ (sendGeminiMessage env h client prompt).2.2 →
      modelName = geminiModelName client) ∧
    (env.genaiNewClient (geminiOptions client h.roundTrippers.length) = none →
      Event.genaiGenerateContent (geminiModelName client) prompt ∈
        (sendGeminiMessage env h client prompt).2.2) ∧
    (∀ config req,
      Event.openaiCreateChatCompletion config req ∈ (sendOpenAIMessage env client prompt).2 →
      req.Model = openaiModelName client) ∧
    (∀ config, openaiConfig env client = Except.ok config →
      Event.openaiCreateChatCompletion config (openaiRequest client prompt) ∈
        (sendOpenAIMessage env client prompt).2) := by
  have hset : client.model ≠ "" →
      geminiModelName client = client.model ∧ openaiModelName client = client.model := by
    intro hmodel
    have hlen : ¬ client.model.length = 0 := fun hzero =>
      hmodel ((length_eq_zero_iff client.model).mp hzero)
    simp [geminiModelName, openaiModelName, hlen]
  have hunset : client.model = "" →
      geminiModelName client = "gemini-1.5-flash" ∧ openaiModelName client = "gpt-3.5-turbo" := by
    intro hmodel
    simp [geminiModelName, openaiModelName, openai.GPT3Dot5Turbo, hmodel]
  refine ⟨hset, hunset, ?_, ?_, ?_, ?_, ?_, ?_⟩
  · by_cases hmodel : client.model = ""
    · rw [(hunset hmodel).1]
      decide
    · rw [(hset hmodel).1]
      exact hmodel
  · by_cases hmodel : client.model = ""
    · rw [(hunset hmodel).2]
      decide
    · rw [(hset hmodel).2]
      exact hmodel
  · intro modelName sent he
    cases hnew : env.genaiNewClient (geminiOptions client h.roundTrippers.length) with
    | some failed =>
      rw [sendGeminiMessage_no_client env h client prompt failed hnew] at he
      simp at he
    | none =>
      rw [sendGeminiMessage_trace env h client prompt hnew] at he
      simp only [List.mem_append, List.mem_cons, List.mem_singleton, List.not_mem_nil,
        or_false] at he
      rcases he with ((he | he) | he) | he
      · cases he
      · cases he
        rfl
      · obtain ⟨proxy, wire, hwire⟩ := run_events env _ _ _ _ he
        cases hwire
      · cases he
  · intro hnew
    rw [sendGeminiMessage_trace env h client prompt hnew]
    simp
  · intro config req he
    cases hconfig : openaiConfig env client with
    | error err =>
      rw [sendOpenAIMessage_no_config env client prompt err hconfig] at he
      simp at he
    | ok built =>
      rw [sendOpenAIMessage_trace env client prompt built hconfig] at he
      simp at he
      rw [he.2]
      rfl
  · intro config hconfig
    rw [sendOpenAIMessage_trace env client prompt config hconfig]
    simp

/-! ## C8: the first choice -/

/-- C8: on the OpenAI path, when the config is built and the provider call
succeeds, a response without choices makes `sendOpenAIMessage` panic on the
index `resp.Choices[0]` (it returns no text and no error), and a response with
at least one choice makes it return the message content of the first choice
with a nil error. -/
theorem openai_first_choice (env : Env) (client : Client) (prompt : String)
    (config : ClientConfig) (resp : ChatCompletionResponse)
    (hconfig : openaiConfig env client = Except.ok config)
    (hresp : env.openaiCreateChatCompletion config (openaiRequest client prompt) =
      Except.ok resp) :
    (resp.Choices = [] →
      (sendOpenAIMessage env client prompt).1 =
        Outcome.panicked "index out of range [0] with length 0" ∧
      ∀ result, (sendOpenAIMessage env client prompt).1 ≠ Outcome.returned result) ∧
    (∀ first rest, resp.Choices = first :: rest →
      (sendOpenAIMessage env client prompt).1 =
        Outcome.returned (first.Message.Content, none)) := by
  constructor
  · intro hempty
    have hpanic : (sendOpenAIMessage env client prompt).1 =
        Outcome.panicked "index out of range [0] with length 0" := by
      simp [sendOpenAIMessage, hconfig, hresp, hempty]
    refine ⟨hpanic, ?_⟩
    intro result hreturned
    rw [hpanic] at hreturned
    cases hreturned
  · intro first rest hchoices
    simp [sendOpenAIMessage, hconfig, hresp, hchoices]

theorem openai_first_choice_witness :
    (openaiConfig (Fake.env Fake.hello { Choices := [] }) (New PlatformOpenAI "secret" "" "" "") =
        Except.ok (openai.DefaultConfig (Fake.env Fake.hello { Choices := [] }) "secret") ∧
      (Fake.env Fake.hello { Choices := [] }).openaiCreateChatCompletion
          (openai.DefaultConfig (Fake.env Fake.hello { Choices := [] }) "secret")
          (openaiRequest (New PlatformOpenAI "secret" "" "" "") "ping") =
        Except.ok { Choices := [] }) ∧
    (sendOpenAIMessage (Fake.env Fake.hello { Choices := [] })
        (New PlatformOpenAI "secret" "" "" "") "ping").1 =
      Outcome.panicked "index out of range [0] with length 0" ∧
    (sendOpenAIMessage (Fake.env Fake.hello Fake.completion)
        (New PlatformOpenAI "secret" "" "" "") "ping").1 =
      Outcome.returned ("pong", none) :=
  ⟨⟨rfl, rfl⟩,
    ((openai_first_choice (Fake.env Fake.hello { Choices := [] })
      (New PlatformOpenAI "secret" "" "" "") "ping"
      (openai.DefaultConfig (Fake.env Fake.hello { Choices := [] }) "secret")
      { Choices := [] } rfl rfl).1 rfl).1,
    (openai_first_choice (Fake.env Fake.hello Fake.completion)
      (New PlatformOpenAI "secret" "" "" "") "ping"
      (openai.DefaultConfig (Fake.env Fake.hello Fake.completion) "secret")
      Fake.completion rfl rfl).2 { Message := { Role := "assistant", Content := "pong" } } [] rfl⟩

/-! ## C9: the OpenAI configuration and request -/

/-- C9: the config `sendOpenAIMessage` builds has the configured API key; its
endpoint is `baseURL` and its API type "CUSTOM" when `baseURL` is not empty,
and the SDK defaults otherwise; its HTTP client is the SDK default (default
transport, no timeout) when `proxy` is empty, and a client proxying through
the parsed URL with a timeout of 30 seconds when `proxy` is set and parses;
when `proxy` is set and does not parse there is no config, only the parse
error.  The request has one message, of role "user" and with the prompt as its
content, at temperature 0.8; the client is built from that config and the one
request is sent through it. -/
theorem openai_configuration (env : Env) (client : Client) (prompt : String) :
    (client.proxy = "" →
      openaiConfig env client = Except.ok
        { authToken := client.apiKey
          BaseURL :=
            if client.baseURL = "" then (openai.DefaultConfig env client.apiKey).BaseURL
            else client.baseURL
          APIType :=
            if client.baseURL = "" then (openai.DefaultConfig env client.apiKey).APIType
            else "CUSTOM"
          HTTPClient := { Transport := RoundTripper.default, Timeout := 0 } }) ∧
    (∀ proxyURL, client.proxy ≠ "" → env.urlParse client.proxy = Except.ok proxyURL →
      openaiConfig env client = Except.ok
        { authToken := client.apiKey
          BaseURL :=
            if client.baseURL = "" then (openai.DefaultConfig env client.apiKey).BaseURL
            else client.baseURL
          APIType :=
            if client.baseURL = "" then (openai.DefaultConfig env client.apiKey).APIType
            else "CUSTOM"
          HTTPClient :=
            { Transport := RoundTripper.proxied proxyURL, Timeout := 30 * time.Second } }) ∧
    (∀ err, client.proxy ≠ "" → env.urlParse client.proxy = Except.error err →
      openaiConfig env client = Except.error err) ∧
    (openai.DefaultConfig env client.apiKey).HTTPClient =
      { Transport := RoundTripper.default, Timeout := 0 } ∧
    openaiRequest client prompt =
      { Model := openaiModelName client
        Temperature := { mantissa := 8, exponent := -1 }
        Messages := [{ Role := "user", Content := prompt }] } ∧
    (∀ config, openaiConfig env client = Except.ok config →
      (sendOpenAIMessage env client prompt).2 =
        [Event.openaiNewClient config,
          Event.openaiCreateChatCompletion config (openaiRequest client prompt)]) := by
  have hbase : client.baseURL.length > 0 ↔ client.baseURL ≠ "" := length_pos_iff client.baseURL
  have hproxy : client.proxy.length > 0 ↔ client.proxy ≠ "" := length_pos_iff client.proxy
  refine ⟨?_, ?_, ?_, rfl, rfl, ?_⟩
  · intro hempty
    by_cases hb : client.baseURL = ""
    · simp [openaiConfig, hempty, hb, openai.DefaultConfig]
    · have hlen : client.baseURL.length > 0 := hbase.mpr hb
      have hnoproxy : ¬ client.proxy.length > 0 := fun hpos => hproxy.mp hpos hempty
      simp only [openaiConfig, hlen, hnoproxy, hb, if_true, if_false]
      rfl
  · intro proxyURL hset hparsed
    have hpos : client.proxy.length > 0 := hproxy.mpr hset
    by_cases hb : client.baseURL = ""
    · simp [openaiConfig, hpos, hparsed, hb, openai.DefaultConfig, time.Second]
    · have hlen : client.baseURL.length > 0 := hbase.mpr hb
      simp only [openaiConfig, hlen, hpos, hparsed, hb, if_true, if_false]
      rfl
  · intro err hset hfailed
    have hpos : client.proxy.length > 0 := hproxy.mpr hset
    simp [openaiConfig, hpos, hfailed]
  · intro config hconfig
    exact sendOpenAIMessage_trace env client prompt config hconfig

/-- The OpenAI path against the fake environment, with an endpoint, a proxy
and a model configured: one client is built from the custom config and one
request is sent, and the first choice's content comes back. -/
theorem sendOpenAIMessage_configured :
    sendOpenAIMessage (Fake.env Fake.hello Fake.completion)
        (New PlatformOpenAI "secret" "https://llm.example/v1" "http://127.0.0.1:7890" "gpt-4")
        "ping" =
      (Outcome.returned ("pong", none),
        [Event.openaiNewClient
            { authToken := "secret", BaseURL := "https://llm.example/v1", APIType := "CUSTOM"
              HTTPClient :=
                { Transport := RoundTripper.proxied
                    { Scheme := "http", Host := "127.0.0.1:7890", Path := "", RawQuery := "" }
                  Timeout := 30000000000 } },
          Event.openaiCreateChatCompletion
            { authToken := "secret", BaseURL := "https://llm.example/v1", APIType := "CUSTOM"
              HTTPClient :=
                { Transport := RoundTripper.proxied
                    { Scheme := "http", Host := "127.0.0.1:7890", Path := "", RawQuery := "" }
                  Timeout := 30000000000 } }
            { Model := "gpt-4", Temperature := { mantissa := 8, exponent := -1 }
              Messages := [{ Role := "user", Content := "ping" }] }]) := by
  rfl

/-! ## C7 and C10: what the transport wrapper sends, and what it leaves alone -/

/-- C7: for a wrapper whose `ProxyURL` is empty or parses, and for every
incoming request, whatever its headers and its query, `RoundTrip` hands one
request to the underlying transport and returns that transport's answer.  In
the request handed over, `Content-Type` has the single value
"application/json" and `User-Agent` the single value "google-api-go-client";
the query string is the encoding (`Values.Encode`) of the incoming query's
parameters after `Set("key", APIKey)`, in which `key` has exactly one value,
the configured `APIKey` (whatever `key` held before is replaced, not added
to), and every other parameter has its incoming values; the other headers,
the method, the body and the rest of the URL are those of the incoming
request. -/
theorem RoundTrip_decorates (env : Env) (h : Heap) (t : Nat) (req : Request)
    (tv : ProxyRoundTripper) (u : URL) (hd : GoMap)
    (ht : h.roundTrippers[t]? = some tv) (hu : h.urls[req.URL]? = some u)
    (hh : h.headers[req.Header]? = some hd)
    (hproxy : tv.ProxyURL = "" ∨ ∃ proxyURL, env.urlParse tv.ProxyURL = Except.ok proxyURL) :
    ∃ proxy sent after,
      ProxyRoundTripper.RoundTrip env h t req =
        (Outcome.returned (env.transportRoundTrip proxy sent), after,
          [Event.transportRoundTrip proxy sent]) ∧
      clonedTransport env tv.ProxyURL = Except.ok proxy ∧
      GoMap.get sent.Header "Content-Type" = ["application/json"] ∧
      Header.Get sent.Header "Content-Type" = "application/json" ∧
      GoMap.get sent.Header "User-Agent" = ["google-api-go-client"] ∧
      Header.Get sent.Header "User-Agent" = "google-api-go-client" ∧
      sent.URL.RawQuery =
        env.valuesEncode (Values.Set (env.parseQuery u.RawQuery) "key" tv.APIKey) ∧
      GoMap.get (Values.Set (env.parseQuery u.RawQuery) "key" tv.APIKey) "key" = [tv.APIKey] ∧
      (∀ other, other ≠ "key" →
        GoMap.get (Values.Set (env.parseQuery u.RawQuery) "key" tv.APIKey) other =
          GoMap.get (env.parseQuery u.RawQuery) other) ∧
      (∀ other, other ≠ "Content-Type" → other ≠ "User-Agent" →
        GoMap.get sent.Header other = GoMap.get hd other) ∧
      sent.Method = req.Method ∧ sent.Body = req.Body ∧
      sent.URL.Scheme = u.Scheme ∧ sent.URL.Host = u.Host ∧ sent.URL.Path = u.Path := by
  have hcloned : ∃ proxy, clonedTransport env tv.ProxyURL = Except.ok proxy := by
    rcases hproxy with hempty | ⟨proxyURL, hparsed⟩
    · exact ⟨none, by simp [clonedTransport, hempty]⟩
    · by_cases hempty : tv.ProxyURL = ""
      · exact ⟨none, by simp [clonedTransport, hempty]⟩
      · exact ⟨some proxyURL, by simp [clonedTransport, hempty, hparsed]⟩
  obtain ⟨proxy, hok⟩ := hcloned
  have hct : GoMap.get (outgoing env tv.APIKey req u hd).Header "Content-Type" =
      ["application/json"] := by
    simp only [outgoing]
    rw [GoMap.get_set_ne _ _ _ _ (by decide), GoMap.get_set_self]
  have hua : GoMap.get (outgoing env tv.APIKey req u hd).Header "User-Agent" =
      ["google-api-go-client"] := by
    simp only [outgoing]
    rw [GoMap.get_set_self]
  refine ⟨proxy, outgoing env tv.APIKey req u hd, _,
    RoundTrip_sends env h t req tv proxy u hd ht hok hu hh, hok, hct, ?_, hua, ?_, rfl,
    GoMap.get_set_self _ _ _, ?_, ?_, rfl, rfl, rfl, rfl, rfl⟩
  · simp [Header.Get, hct]
  · simp [Header.Get, hua]
  · intro other hother
    exact GoMap.get_set_ne _ _ _ _ hother
  · intro other hct' hua'
    simp only [outgoing]
    rw [GoMap.get_set_ne _ _ _ _ hua', GoMap.get_set_ne _ _ _ _ hct']

theorem RoundTrip_decorates_witness :
    (Fake.heap.roundTrippers[0]? =
        some { APIKey := "secret", ProxyURL := "http://127.0.0.1:7890" } ∧
      Fake.heap.urls[Fake.request.URL]? =
        some { Scheme := "https", Host := "generativelanguage.googleapis.com",
               Path := "/v1beta/models/gemini-1.5-flash:generateContent",
               RawQuery := "key=stale" } ∧
      Fake.heap.headers[Fake.request.Header]? =
        some [("Content-Type", ["text/plain"]), ("Accept", ["text/html"])] ∧
      (Fake.env Fake.hello Fake.completion).urlParse "http://127.0.0.1:7890" =
        Except.ok { Scheme := "http", Host := "127.0.0.1:7890", Path := "", RawQuery := "" }) ∧
    ∃ proxy sent after,
      ProxyRoundTripper.RoundTrip (Fake.env Fake.hello Fake.completion) Fake.heap 0
          Fake.request =
        (Outcome.returned (Except.ok { StatusCode := 200, Body := "" }), after,
          [Event.transportRoundTrip proxy sent]) ∧
      Header.Get sent.Header "Content-Type" = "application/json" ∧
      Header.Get sent.Header "User-Agent" = "google-api-go-client" ∧
      Header.Get sent.Header "Accept" = "text/html" ∧
      sent.URL.RawQuery =
        Fake.valuesEncode (Values.Set (Fake.parseQuery "key=stale") "key" "secret") ∧
      GoMap.get (Values.Set (Fake.parseQuery "key=stale") "key" "secret") "key" = ["secret"] :=
  ⟨⟨rfl, rfl, rfl, rfl⟩,
    match RoundTrip_decorates (Fake.env Fake.hello Fake.completion) Fake.heap 0 Fake.request
      { APIKey := "secret", ProxyURL := "http://127.0.0.1:7890" }
      { Scheme := "https", Host := "generativelanguage.googleapis.com",
        Path := "/v1beta/models/gemini-1.5-flash:generateContent", RawQuery := "key=stale" }
      [("Content-Type", ["text/plain"]), ("Accept", ["text/html"])] rfl rfl rfl
      (Or.inr ⟨{ Scheme := "http", Host := "127.0.0.1:7890", Path := "", RawQuery := "" },
        rfl⟩) with
    | ⟨proxy, sent, after, hsent, _, _, hct, _, hua, hraw, hkey, _, hother, _⟩ =>
      ⟨proxy, sent, after, hsent, hct, hua,
        by
          have haccept := hother "Accept" (by decide) (by decide)
          simp [Header.Get, haccept, GoMap.get],
        hraw, hkey⟩⟩

/-- C10: `RoundTrip` does not change what it is given.  Whether it returns a
response or an error (or panics), after the call the caller's request has the
URL object and the header map it had before, with the values they had before,
query string and headers included: the `key` parameter and the two headers are
written to the objects of the clone, which are new: the URL and the header
map of a request handed to the transport are the two objects the call added
to the heap.  Every other URL and header map of the heap is unchanged as
well, and so are the round trippers, the receiver's `APIKey` and `ProxyURL`
among them. -/
theorem RoundTrip_does_not_mutate (env : Env) (h : Heap) (t : Nat) (req : Request) :
    (ProxyRoundTripper.RoundTrip env h t req).2.1.urls[req.URL]? = h.urls[req.URL]? ∧
    (ProxyRoundTripper.RoundTrip env h t req).2.1.headers[req.Header]? =
      h.headers[req.Header]? ∧
    (ProxyRoundTripper.RoundTrip env h t req).2.1.roundTrippers[t]? = h.roundTrippers[t]? ∧
    (ProxyRoundTripper.RoundTrip env h t req).2.1.roundTrippers = h.roundTrippers ∧
    (∀ addr, addr < h.urls.length →
      (ProxyRoundTripper.RoundTrip env h t req).2.1.urls[addr]? = h.urls[addr]?) ∧
    (∀ addr, addr < h.headers.length →
      (ProxyRoundTripper.RoundTrip env h t req).2.1.headers[addr]? = h.headers[addr]?) ∧
    (∀ proxy sent,
      Event.transportRoundTrip proxy sent ∈ (ProxyRoundTripper.RoundTrip env h t req).2.2 →
      (ProxyRoundTripper.RoundTrip env h t req).2.1.urls = h.urls ++ [sent.URL] ∧
      (ProxyRoundTripper.RoundTrip env h t req).2.1.headers = h.headers ++ [sent.Header]) := by
  rcases RoundTrip_cases env h t req with hr | ⟨err, hr⟩ | ⟨tv, proxy, u, hd, _, _, hu, hh, hr⟩
  · simp [hr]
  · simp [hr]
  · have hulen : req.URL < h.urls.length := (List.getElem?_eq_some.mp hu).1
    have hhlen : req.Header < h.headers.length := (List.getElem?_eq_some.mp hh).1
    rw [hr]
    refine ⟨?_, ?_, rfl, rfl, ?_, ?_, ?_⟩
    · exact List.getElem?_append_left hulen
    · exact List.getElem?_append_left hhlen
    · intro addr haddr
      exact List.getElem?_append_left haddr
    · intro addr haddr
      exact List.getElem?_append_left haddr
    · intro proxy' sent hmem
      simp only [List.mem_singleton, Event.transportRoundTrip.injEq] at hmem
      rw [hmem.2]
      exact ⟨rfl, rfl⟩

end Generate
